import Mathlib

/-!
Verification of the Teensy 4.1 dual-motor control firmware
(`src/unnamed/part_002`): per-tick speed ramp, timer commitment, boost
subsystem, safety governor (direction reversal, stop, emergency stop)
and sync drift check.

Modelling conventions:
* C `float` values are modelled as exact rationals (`ℚ`); the claims are
  about the control algorithm, not about rounding.
* `millis()` timestamps are naturals (milliseconds).  Within a run the
  clock is monotone, so the unsigned C subtraction
  `millis() - m.boostStartTime` agrees with truncated `Nat` subtraction
  whenever `boostStartTime ≤ now`, which holds in every real execution
  because `boostStartTime` is a previously sampled `millis()` value.
* The firmware's busy-wait loops (`setDirection`, `stopMotor`) wait for a
  ramp condition with one `updateSpeed` call and a 10 ms delay per
  iteration; they are modelled with explicit fuel, `none` meaning the
  loop has not exited within `fuel` iterations.  The emergency-stop loop
  is intrinsically time-bounded: its guard `millis() - stopStartTime < 500`
  together with the 10 ms delay per iteration allows at most 50
  iterations, so it is modelled with fuel 50.
* Hardware effects are mirrored by fields of the motor record:
  `timerRunning`/`timerPeriod` for the `IntervalTimer`, `dirPinHigh` and
  `stepPinHigh` for the DIR and PUL output pins.
-/

namespace DualMotor

/-- MAX_SPEED: maximum steps/second (part_002 line 32). -/
def MAX_SPEED : ℚ := 20000

/-- ACCEL_RATE: steps/second² acceleration (part_002 line 34). -/
def ACCEL_RATE : ℚ := 8000

/-- accelUpdateInterval: control-tick period in ms (part_002 line 80). -/
def accelUpdateInterval : ℕ := 10

/-- accelStep = ACCEL_RATE * accelUpdateInterval / 1000, the per-tick speed
increment computed inside `updateSpeed` (part_002 line 218). -/
def accelStep : ℚ := ACCEL_RATE * (accelUpdateInterval : ℚ) / 1000

/-- SYNC_THRESHOLD: drift alert threshold in steps (part_002 line 42). -/
def SYNC_THRESHOLD : ℤ := 100

/-- Arduino constrain(amt, low, high). -/
def constrain (x lo hi : ℚ) : ℚ :=
  if x < lo then lo else if x > hi then hi else x

/-- BoostConfig (part_002 lines 48-52).  `duration` is a `uint16_t`. -/
structure BoostConfig where
  multiplier : ℚ
  duration : ℕ
  enabled : Bool
deriving DecidableEq

/-- Initial boostConfig = {BOOST_MULTIPLIER, BOOST_DURATION, true}
(part_002 line 54), with BOOST_MULTIPLIER = 1.5 and BOOST_DURATION = 800. -/
def boostConfigInit : BoostConfig :=
  { multiplier := 3 / 2, duration := 800, enabled := true }

/-- Motor (part_002 lines 57-72), plus the observable hardware state the
claims talk about: the interval timer (`timerRunning`, `timerPeriod`) and
the DIR / PUL pin levels. -/
structure Motor where
  position : ℤ
  currentSpeed : ℚ
  targetSpeed : ℚ
  isRunning : Bool
  direction : ℤ
  timerRunning : Bool
  timerPeriod : ℚ
  boostActive : Bool
  boostStartTime : ℕ
  boostSpeed : ℚ
  normalSpeed : ℚ
  dirPinHigh : Bool
  stepPinHigh : Bool
deriving DecidableEq

/-- Initial state of either motor (part_002 lines 75-76, with the pins
driven LOW in setup, lines 107-114). -/
def motorInit : Motor :=
  { position := 0, currentSpeed := 0, targetSpeed := 0, isRunning := false,
    direction := 1, timerRunning := false, timerPeriod := 0,
    boostActive := false, boostStartTime := 0, boostSpeed := 0,
    normalSpeed := 0, dirPinHigh := false, stepPinHigh := false }

/-- The boost-expiry check at the top of the running branch of
`updateSpeed` (part_002 lines 210-215): if boost is active and
`millis() - boostStartTime >= boostConfig.duration`, clear boost and
restore `targetSpeed = normalSpeed`. -/
def boostExpire (cfg : BoostConfig) (now : ℕ) (m : Motor) : Motor :=
  if m.boostActive = true ∧ cfg.duration ≤ now - m.boostStartTime then
    { m with boostActive := false, targetSpeed := m.normalSpeed }
  else m

/-- updateSpeed (part_002 lines 202-233).  If the motor is not running,
the timer is ended and `currentSpeed` forced to 0; otherwise expired
boost is cleared, then `currentSpeed` moves toward `targetSpeed` by at
most `accelStep` (snapping when within `accelStep`), and the result is
constrained to `[0, MAX_SPEED]`. -/
def updateSpeed (cfg : BoostConfig) (now : ℕ) (m : Motor) : Motor :=
  if m.isRunning = false then
    { m with timerRunning := false, currentSpeed := 0 }
  else
    let m1 := boostExpire cfg now m
    let speedDiff := m1.targetSpeed - m1.currentSpeed
    let next :=
      if accelStep < |speedDiff| then
        if 0 < speedDiff then m1.currentSpeed + accelStep
        else m1.currentSpeed - accelStep
      else m1.targetSpeed
    { m1 with currentSpeed := constrain next 0 MAX_SPEED }

/-- The per-motor half of updateTimers (part_002 lines 235-254): when
`currentSpeed > 0 && isRunning` the timer is (re)begun with period
`1000000 / currentSpeed` microseconds, otherwise it is ended. -/
def commitTimer (m : Motor) : Motor :=
  if 0 < m.currentSpeed ∧ m.isRunning = true then
    { m with timerRunning := true, timerPeriod := 1000000 / m.currentSpeed }
  else
    { m with timerRunning := false }

/-- updateTimers commits both motors' timers back to back. -/
def updateTimers (p : Motor × Motor) : Motor × Motor :=
  (commitTimer p.1, commitTimer p.2)

/-- setSpeed (part_002 lines 496-505): clamp the request into
`[0, MAX_SPEED]`, store it as `targetSpeed`, auto-start on a positive
value, stop on zero. -/
def setSpeed (m : Motor) (speed : ℚ) : Motor :=
  let s := constrain speed 0 MAX_SPEED
  let m1 := { m with targetSpeed := s }
  if 0 < s ∧ m1.isRunning = false then { m1 with isRunning := true }
  else if s = 0 then { m1 with isRunning := false }
  else m1

/-- The busy-wait `while (m.currentSpeed > 300)` loop inside setDirection
(part_002 lines 519-522), one `updateSpeed` plus a 10 ms delay per
iteration, modelled with fuel. -/
def dirLoop (cfg : BoostConfig) : ℕ → ℕ → Motor → Option Motor
  | 0, _, m => if 300 < m.currentSpeed then none else some m
  | fuel + 1, now, m =>
    if 300 < m.currentSpeed then
      dirLoop cfg fuel (now + accelUpdateInterval) (updateSpeed cfg now m)
    else some m

/-- setDirection (part_002 lines 507-535).  A reversal requested above
500 steps/s lowers `targetSpeed` to 200, waits for `currentSpeed ≤ 300`,
then commits the direction field and DIR pin and restores the original
`targetSpeed`; otherwise the direction is committed immediately. -/
def setDirection (cfg : BoostConfig) (fuel now : ℕ) (m : Motor) (dir : ℤ) :
    Option Motor :=
  let newDir : ℤ := if 0 ≤ dir then 1 else -1
  if newDir ≠ m.direction ∧ 500 < m.currentSpeed then
    let originalTarget := m.targetSpeed
    match dirLoop cfg fuel now { m with targetSpeed := 200 } with
    | none => none
    | some m2 =>
      some { m2 with direction := newDir,
                     dirPinHigh := if newDir = 1 then false else true,
                     targetSpeed := originalTarget }
  else
    some { m with direction := newDir,
                  dirPinHigh := if newDir = 1 then false else true }

/-- The busy-wait `while (m.currentSpeed > 1)` loop inside stopMotor
(part_002 lines 541-544), modelled with fuel. -/
def stopLoop (cfg : BoostConfig) : ℕ → ℕ → Motor → Option Motor
  | 0, _, m => if 1 < m.currentSpeed then none else some m
  | fuel + 1, now, m =>
    if 1 < m.currentSpeed then
      stopLoop cfg fuel (now + accelUpdateInterval) (updateSpeed cfg now m)
    else some m

/-- stopMotor (part_002 lines 537-548): zero the target, wait for decay
to ≤ 1, then clear `isRunning`, end the timer and zero `currentSpeed`. -/
def stopMotor (cfg : BoostConfig) (fuel now : ℕ) (m : Motor) : Option Motor :=
  (stopLoop cfg fuel now { m with targetSpeed := 0 }).map fun m2 =>
    { m2 with isRunning := false, timerRunning := false, currentSpeed := 0 }

/-- The emergency-stop deceleration loop (part_002 lines 559-564).  The
guard `(cs1 > 1 || cs2 > 1) && (millis() - stopStartTime < 500)` with a
10 ms delay per iteration allows at most 50 iterations, so the loop is
run with fuel 50; the fuel-exhausted case is exactly the 500 ms deadline
firing. -/
def estopLoop (cfg : BoostConfig) : ℕ → ℕ → Motor × Motor → Motor × Motor
  | 0, _, p => p
  | fuel + 1, now, p =>
    if 1 < p.1.currentSpeed ∨ 1 < p.2.currentSpeed then
      estopLoop cfg fuel (now + accelUpdateInterval)
        (updateSpeed cfg now p.1, updateSpeed cfg now p.2)
    else p

/-- The forced-stop epilogue of emergencyStop (part_002 lines 566-574):
end timer, clear `isRunning`, zero `currentSpeed`, drive the PUL pin
LOW. -/
def forceStop (m : Motor) : Motor :=
  { m with timerRunning := false, isRunning := false, currentSpeed := 0,
           stepPinHigh := false }

/-- emergencyStop (part_002 lines 550-577). -/
def emergencyStop (cfg : BoostConfig) (now : ℕ) (m1 m2 : Motor) :
    Motor × Motor :=
  let p := estopLoop cfg 50 now
    ({ m1 with targetSpeed := 0 }, { m2 with targetSpeed := 0 })
  (forceStop p.1, forceStop p.2)

/-- applyBoost (part_002 lines 619-649). -/
def applyBoost (cfg : BoostConfig) (now : ℕ) (m : Motor) (targetSpeed : ℚ) :
    Motor :=
  if cfg.enabled = false then setSpeed m targetSpeed
  else
    let b := targetSpeed * cfg.multiplier
    let b2 := if MAX_SPEED < b then MAX_SPEED else b
    { m with normalSpeed := targetSpeed, boostSpeed := b2,
             boostActive := true, boostStartTime := now, targetSpeed := b2 }

/-- checkSync (part_002 lines 651-665): computes the advisory condition
`|position1 - position2| > SYNC_THRESHOLD && (running1 || running2)` and
only prints; it mutates nothing, so the model returns the advisory flag
together with the untouched pair of motors. -/
def checkSync (m1 m2 : Motor) : Bool × Motor × Motor :=
  (decide (SYNC_THRESHOLD < |m1.position - m2.position|) &&
     (m1.isRunning || m2.isRunning), m1, m2)

/-- The CONFIG:BOOST:multiplier:duration:enabled branch of processCommand
(part_002 lines 447-470), applied to the already-parsed numeric fields:
`mult` is `toFloat` of the first field, `dur` is `toInt` of the second,
`en` is `toInt` of the third.  `boostConfig.duration` is a `uint16_t`,
so the assignment truncates the int modulo 2^16; no range check or clamp
is performed on any field. -/
def processConfigBoost (mult : ℚ) (dur : ℤ) (en : ℤ) : BoostConfig :=
  { multiplier := mult, duration := (dur % 65536).toNat, enabled := en == 1 }

/-- Fold a control tick (`updateSpeed`) over a list of tick timestamps. -/
def applyTicks (cfg : BoostConfig) (times : List ℕ) (m : Motor) : Motor :=
  times.foldl (fun mm t => updateSpeed cfg t mm) m

/-- The claimed speed invariant: `0 ≤ currentSpeed ≤ MAX_SPEED`. -/
def SpeedInBounds (m : Motor) : Prop :=
  0 ≤ m.currentSpeed ∧ m.currentSpeed ≤ MAX_SPEED

instance (m : Motor) : Decidable (SpeedInBounds m) := by
  unfold SpeedInBounds; infer_instance

/-- The ramp computation applied to `currentSpeed` in the running branch
of `updateSpeed`, as a pure function of the effective target `T` and the
current speed `c`. -/
def rampTo (T c : ℚ) : ℚ :=
  constrain
    (if accelStep < |T - c| then
       if 0 < T - c then c + accelStep else c - accelStep
     else T)
    0 MAX_SPEED

lemma accelStep_eq : accelStep = 80 := by
  norm_num [accelStep, ACCEL_RATE, accelUpdateInterval]

lemma MAX_SPEED_eq : MAX_SPEED = 20000 := rfl

lemma constrain_mem (x lo hi : ℚ) (h : lo ≤ hi) :
    lo ≤ constrain x lo hi ∧ constrain x lo hi ≤ hi := by
  unfold constrain; split_ifs <;> constructor <;> linarith

lemma constrain_eq_self (x lo hi : ℚ) (h1 : lo ≤ x) (h2 : x ≤ hi) :
    constrain x lo hi = x := by
  unfold constrain; split_ifs <;> linarith

lemma boostExpire_currentSpeed (cfg : BoostConfig) (now : ℕ) (m : Motor) :
    (boostExpire cfg now m).currentSpeed = m.currentSpeed := by
  unfold boostExpire; split <;> rfl

lemma boostExpire_isRunning (cfg : BoostConfig) (now : ℕ) (m : Motor) :
    (boostExpire cfg now m).isRunning = m.isRunning := by
  unfold boostExpire; split <;> rfl

lemma boostExpire_normalSpeed (cfg : BoostConfig) (now : ℕ) (m : Motor) :
    (boostExpire cfg now m).normalSpeed = m.normalSpeed := by
  unfold boostExpire; split <;> rfl

lemma boostExpire_direction (cfg : BoostConfig) (now : ℕ) (m : Motor) :
    (boostExpire cfg now m).direction = m.direction := by
  unfold boostExpire; split <;> rfl

lemma boostExpire_dirPinHigh (cfg : BoostConfig) (now : ℕ) (m : Motor) :
    (boostExpire cfg now m).dirPinHigh = m.dirPinHigh := by
  unfold boostExpire; split <;> rfl

lemma boostExpire_targetSpeed_cases (cfg : BoostConfig) (now : ℕ) (m : Motor) :
    (boostExpire cfg now m).targetSpeed = m.targetSpeed ∨
      (boostExpire cfg now m).targetSpeed = m.normalSpeed := by
  unfold boostExpire; split
  · right; rfl
  · left; rfl

lemma boostExpire_of_inactive (cfg : BoostConfig) (now : ℕ) (m : Motor)
    (h : m.boostActive = false) : boostExpire cfg now m = m := by
  unfold boostExpire
  rw [if_neg]
  simp [h]

lemma updateSpeed_not_running (cfg : BoostConfig) (now : ℕ) (m : Motor)
    (h : m.isRunning = false) :
    updateSpeed cfg now m = { m with timerRunning := false, currentSpeed := 0 } := by
  unfold updateSpeed
  rw [if_pos h]

lemma updateSpeed_running (cfg : BoostConfig) (now : ℕ) (m : Motor)
    (h : m.isRunning = true) :
    updateSpeed cfg now m =
      { boostExpire cfg now m with
          currentSpeed := rampTo (boostExpire cfg now m).targetSpeed m.currentSpeed } := by
  unfold updateSpeed
  rw [if_neg (by simp [h])]
  simp only [rampTo, boostExpire_currentSpeed]

lemma rampTo_mem (T c : ℚ) : 0 ≤ rampTo T c ∧ rampTo T c ≤ MAX_SPEED :=
  constrain_mem _ 0 MAX_SPEED (by norm_num [MAX_SPEED])

lemma rampTo_snap (T c : ℚ) (h : |T - c| ≤ accelStep)
    (h0 : 0 ≤ T) (hM : T ≤ MAX_SPEED) : rampTo T c = T := by
  unfold rampTo
  rw [if_neg (by linarith), constrain_eq_self T 0 MAX_SPEED h0 hM]

lemma rampTo_up (T c : ℚ) (h : accelStep < T - c)
    (h0 : 0 ≤ c) (hM : T ≤ MAX_SPEED) : rampTo T c = c + accelStep := by
  have ha : accelStep < |T - c| := lt_of_lt_of_le h (le_abs_self _)
  have hs : accelStep = 80 := accelStep_eq
  unfold rampTo
  rw [if_pos ha, if_pos (by linarith)]
  exact constrain_eq_self _ 0 MAX_SPEED (by linarith) (by rw [MAX_SPEED_eq] at hM ⊢; linarith)

lemma rampTo_down (T c : ℚ) (h : accelStep < c - T)
    (h0 : 0 ≤ T) (hM : c ≤ MAX_SPEED) : rampTo T c = c - accelStep := by
  have ha : accelStep < |T - c| := by
    rw [abs_sub_comm]; exact lt_of_lt_of_le h (le_abs_self _)
  have hs : accelStep = 80 := accelStep_eq
  unfold rampTo
  rw [if_pos ha, if_neg (by intro hc; linarith)]
  exact constrain_eq_self _ 0 MAX_SPEED (by linarith) (by rw [MAX_SPEED_eq] at hM ⊢; linarith)

lemma rampTo_abs_le (T c : ℚ) (h0 : 0 ≤ c) (hM : c ≤ MAX_SPEED) :
    |rampTo T c - c| ≤ accelStep := by
  have hs : accelStep = 80 := accelStep_eq
  unfold rampTo
  set v := (if accelStep < |T - c| then
      if 0 < T - c then c + accelStep else c - accelStep
    else T) with hv
  have hbound : c - accelStep ≤ v ∧ v ≤ c + accelStep := by
    rw [hv]; split_ifs with h1 h2
    · constructor <;> linarith
    · constructor <;> linarith
    · have hb := abs_le.mp (not_lt.mp h1)
      constructor <;> linarith
  unfold constrain
  split_ifs with ha hb
  · rw [abs_le]; constructor <;> linarith [hbound.1, hbound.2]
  · rw [abs_le]; constructor <;> linarith [hbound.1, hbound.2]
  · rw [abs_le]; constructor <;> linarith [hbound.1, hbound.2]

lemma setSpeed_currentSpeed (m : Motor) (v : ℚ) :
    (setSpeed m v).currentSpeed = m.currentSpeed := by
  simp only [setSpeed]; split_ifs <;> rfl

lemma applyBoost_currentSpeed (cfg : BoostConfig) (now : ℕ) (m : Motor) (v : ℚ) :
    (applyBoost cfg now m v).currentSpeed = m.currentSpeed := by
  unfold applyBoost
  split_ifs
  · exact setSpeed_currentSpeed m v
  · rfl

lemma speedInBounds_of_zero (m : Motor) (h : m.currentSpeed = 0) :
    SpeedInBounds m := by
  unfold SpeedInBounds
  rw [h]
  norm_num [MAX_SPEED]

lemma updateSpeed_bounds (cfg : BoostConfig) (now : ℕ) (m : Motor) :
    SpeedInBounds (updateSpeed cfg now m) := by
  cases hr : m.isRunning
  · exact speedInBounds_of_zero _ (by rw [updateSpeed_not_running cfg now m hr])
  · rw [updateSpeed_running cfg now m hr]
    exact rampTo_mem _ _

/-- C1: every operation that writes `currentSpeed` keeps it inside
`[0, MAX_SPEED]`: `updateSpeed` re-establishes the bound on every tick
(it either forces 0 or constrains the ramp result), `setSpeed` and
`applyBoost` never touch `currentSpeed`, and `stopMotor` and
`emergencyStop` end with `currentSpeed = 0`. -/
theorem C1_speed_bounds (cfg : BoostConfig) (now fuel : ℕ) (v : ℚ)
    (m mA mB : Motor) (hm : SpeedInBounds m) :
    SpeedInBounds (updateSpeed cfg now m) ∧
    SpeedInBounds (setSpeed m v) ∧
    SpeedInBounds (applyBoost cfg now m v) ∧
    (∀ m2, stopMotor cfg fuel now m = some m2 → SpeedInBounds m2) ∧
    SpeedInBounds (emergencyStop cfg now mA mB).1 ∧
    SpeedInBounds (emergencyStop cfg now mA mB).2 := by
  refine ⟨updateSpeed_bounds cfg now m, ?_, ?_, ?_, ?_, ?_⟩
  · unfold SpeedInBounds
    rw [setSpeed_currentSpeed]
    exact hm
  · unfold SpeedInBounds
    rw [applyBoost_currentSpeed]
    exact hm
  · intro m2 h
    unfold stopMotor at h
    rcases hsl : stopLoop cfg fuel now { m with targetSpeed := 0 } with _ | m3
    · rw [hsl] at h; exact absurd h (by simp)
    · rw [hsl] at h
      simp only [Option.map_some'] at h
      injection h with h
      exact speedInBounds_of_zero _ (by rw [← h])
  · exact speedInBounds_of_zero _ rfl
  · exact speedInBounds_of_zero _ rfl

/-- C1 witness: the invariant holds for the startup state and is kept by
the first control tick. -/
theorem C1_speed_bounds_witness :
    SpeedInBounds motorInit ∧ SpeedInBounds (updateSpeed boostConfigInit 0 motorInit) :=
  ⟨by decide,
   (C1_speed_bounds boostConfigInit 0 0 0 motorInit motorInit motorInit (by decide)).1⟩

/-- C9: checkSync raises its advisory exactly when the position drift
exceeds SYNC_THRESHOLD and at least one motor is running, and it leaves
both motor records untouched. -/
theorem C9_checkSync_advisory (m1 m2 : Motor) :
    (checkSync m1 m2).2 = (m1, m2) ∧
      ((checkSync m1 m2).1 = true ↔
        SYNC_THRESHOLD < |m1.position - m2.position| ∧
          (m1.isRunning = true ∨ m2.isRunning = true)) := by
  unfold checkSync
  refine ⟨rfl, ?_⟩
  simp [Bool.and_eq_true, Bool.or_eq_true, decide_eq_true_iff]

/-- C10: setSpeed stores the clamped request as `targetSpeed`, couples
`isRunning` to its sign (positive auto-starts, zero — including every
request ≤ 0 — stops), touches no other field, and after a zero-speed
command the next tick snaps `currentSpeed` to 0 and ends the timer. -/
theorem C10_setSpeed_coupling (cfg : BoostConfig) (t : ℕ) (m : Motor) (v : ℚ) :
    (setSpeed m v).targetSpeed = constrain v 0 MAX_SPEED ∧
    (setSpeed m v).isRunning = decide (0 < constrain v 0 MAX_SPEED) ∧
    (v ≤ 0 → constrain v 0 MAX_SPEED = 0) ∧
    (constrain v 0 MAX_SPEED = 0 →
       (updateSpeed cfg t (setSpeed m v)).currentSpeed = 0 ∧
       (updateSpeed cfg t (setSpeed m v)).timerRunning = false) ∧
    (setSpeed m v).currentSpeed = m.currentSpeed ∧
    (setSpeed m v).position = m.position ∧
    (setSpeed m v).direction = m.direction ∧
    (setSpeed m v).boostActive = m.boostActive ∧
    (setSpeed m v).boostStartTime = m.boostStartTime ∧
    (setSpeed m v).boostSpeed = m.boostSpeed ∧
    (setSpeed m v).normalSpeed = m.normalSpeed ∧
    (setSpeed m v).dirPinHigh = m.dirPinHigh ∧
    (setSpeed m v).stepPinHigh = m.stepPinHigh ∧
    (setSpeed m v).timerRunning = m.timerRunning ∧
    (setSpeed m v).timerPeriod = m.timerPeriod := by
  have hmem := constrain_mem v 0 MAX_SPEED (by norm_num [MAX_SPEED])
  have hc0 : v ≤ 0 → constrain v 0 MAX_SPEED = 0 := by
    intro hv
    unfold constrain
    split_ifs <;> linarith [MAX_SPEED_eq]
  have hns : (setSpeed m v).isRunning = decide (0 < constrain v 0 MAX_SPEED) := by
    simp only [setSpeed]
    split_ifs with h1 h2
    · simp [h1.1]
    · simp [h2]
    · have hpos : 0 < constrain v 0 MAX_SPEED :=
        lt_of_le_of_ne hmem.1 (Ne.symm h2)
      rcases not_and_or.mp h1 with h3 | h3
      · exact absurd hpos h3
      · simp only [Bool.not_eq_false] at h3
        simp [h3, hpos]
  have hstop : constrain v 0 MAX_SPEED = 0 →
      (updateSpeed cfg t (setSpeed m v)).currentSpeed = 0 ∧
      (updateSpeed cfg t (setSpeed m v)).timerRunning = false := by
    intro hz
    have hrun : (setSpeed m v).isRunning = false := by
      rw [hns, hz]
      simp
    rw [updateSpeed_not_running cfg t _ hrun]
    exact ⟨rfl, rfl⟩
  refine ⟨?_, hns, hc0, hstop, setSpeed_currentSpeed m v, ?_⟩
  · simp only [setSpeed]; split_ifs <;> rfl
  · simp only [setSpeed]
    split_ifs <;> exact ⟨rfl, rfl, rfl, rfl, rfl, rfl, rfl, rfl, rfl, rfl⟩

/-- C10 witness: a zero-speed command (here SPEED:-5, clamped to 0) stops
the motor instantly on the next tick. -/
theorem C10_setSpeed_coupling_witness :
    (updateSpeed boostConfigInit 0 (setSpeed motorInit (-5))).currentSpeed = 0 ∧
    (updateSpeed boostConfigInit 0 (setSpeed motorInit (-5))).timerRunning = false :=
  (C10_setSpeed_coupling boostConfigInit 0 motorInit (-5)).2.2.2.1 (by decide)

/-- C8 counterexample: the CONFIG:BOOST handler stores the parsed values
verbatim.  CONFIG:BOOST:0.1:... stores multiplier 0.1 < 1.0, a zero
duration is stored as 0, and a negative duration wraps through the
uint16_t field to 65535 — nothing is clamped. -/
theorem C8_counterexample :
    (processConfigBoost (1/10) 200 1).multiplier = 1/10 ∧
    ¬(1 ≤ (processConfigBoost (1/10) 200 1).multiplier) ∧
    (processConfigBoost (3/2) 0 1).duration = 0 ∧
    (processConfigBoost (3/2) (-1) 1).duration = 65535 := by
  refine ⟨rfl, by norm_num [processConfigBoost], by decide, by decide⟩

/-- C8 amended: CONFIG:BOOST never rejects its input, but it performs no
clamping either: the multiplier is stored exactly as parsed (so it can be
< 1.0), the duration is the parsed integer truncated modulo 2^16 by the
uint16_t field (so it is < 65536 but can be 0 or a wrapped negative), and
enabled is the comparison with 1. -/
theorem C8_amended (mult : ℚ) (dur en : ℤ) :
    (processConfigBoost mult dur en).multiplier = mult ∧
    (processConfigBoost mult dur en).duration = (dur % 65536).toNat ∧
    (processConfigBoost mult dur en).duration < 65536 ∧
    ((processConfigBoost mult dur en).enabled = true ↔ en = 1) := by
  refine ⟨rfl, rfl, ?_, ?_⟩
  · show (dur % 65536).toNat < 65536
    have h : dur % 65536 < 65536 := Int.emod_lt_of_pos dur (by norm_num)
    omega
  · show (en == 1) = true ↔ en = 1
    exact beq_iff_eq

lemma updateSpeed_simple (cfg : BoostConfig) (now : ℕ) (m : Motor)
    (hr : m.isRunning = true) (hb : m.boostActive = false) :
    updateSpeed cfg now m =
      { m with currentSpeed := rampTo m.targetSpeed m.currentSpeed } := by
  rw [updateSpeed_running cfg now m hr, boostExpire_of_inactive cfg now m hb]

/-- C2 amended: the per-tick ramp-rate bound holds for every tick on a
running motor whose speed is within `[0, MAX_SPEED]` (the C1 invariant),
for every targetSpeed and boost state; the restriction to running motors
is forced by the counterexample. -/
theorem C2_tick_rate_amended (cfg : BoostConfig) (now : ℕ) (m : Motor)
    (hr : m.isRunning = true) (h0 : 0 ≤ m.currentSpeed)
    (hM : m.currentSpeed ≤ MAX_SPEED) :
    |(updateSpeed cfg now m).currentSpeed - m.currentSpeed| ≤ accelStep := by
  rw [updateSpeed_running cfg now m hr]
  exact rampTo_abs_le _ _ h0 hM

/-- C2 amended witness: one tick from rest toward target 1000 changes
the speed by at most accelStep. -/
theorem C2_tick_rate_amended_witness :
    |(updateSpeed boostConfigInit 0
        { motorInit with isRunning := true, targetSpeed := 1000 }).currentSpeed -
      { motorInit with isRunning := true, targetSpeed := 1000 }.currentSpeed| ≤ accelStep :=
  C2_tick_rate_amended boostConfigInit 0
    { motorInit with isRunning := true, targetSpeed := 1000 }
    rfl (by norm_num [motorInit]) (by norm_num [motorInit, MAX_SPEED])

/-- The state reached by the command/tick sequence SPEED:1000, two control
ticks (speed ramps 0 → 80 → 160), then SPEED:0 (which clears `isRunning`
while `currentSpeed` is still 160). -/
def c2State : Motor :=
  setSpeed (updateSpeed boostConfigInit 20
    (updateSpeed boostConfigInit 10 (setSpeed motorInit 1000))) 0

/-- C2 counterexample: the claim quantifies over all values of
`isRunning`, but in the reachable state `c2State` (not running, speed
160) the next tick snaps `currentSpeed` from 160 to 0 — a change of 160,
twice accelStep. -/
theorem C2_counterexample :
    c2State.isRunning = false ∧
    c2State.currentSpeed = 160 ∧
    (updateSpeed boostConfigInit 30 c2State).currentSpeed = 0 ∧
    accelStep < |(updateSpeed boostConfigInit 30 c2State).currentSpeed -
      c2State.currentSpeed| := by
  have hc1000 : constrain 1000 0 MAX_SPEED = 1000 := by
    unfold constrain MAX_SPEED
    rw [if_neg (by norm_num), if_neg (by norm_num)]
  have h1 : setSpeed motorInit 1000 =
      { motorInit with targetSpeed := 1000, isRunning := true } := by
    simp only [setSpeed, hc1000]
    rw [if_pos ⟨by norm_num, rfl⟩]
  have hr80 : rampTo (1000 : ℚ) 0 = 80 := by
    rw [rampTo_up 1000 0 (by rw [accelStep_eq]; norm_num) (by norm_num)
      (by rw [MAX_SPEED_eq]; norm_num), accelStep_eq]
    norm_num
  have hr160 : rampTo (1000 : ℚ) 80 = 160 := by
    rw [rampTo_up 1000 80 (by rw [accelStep_eq]; norm_num) (by norm_num)
      (by rw [MAX_SPEED_eq]; norm_num), accelStep_eq]
    norm_num
  have h2 : updateSpeed boostConfigInit 10 (setSpeed motorInit 1000) =
      { motorInit with targetSpeed := 1000, isRunning := true, currentSpeed := 80 } := by
    rw [h1, updateSpeed_simple _ _ _ rfl rfl]
    simp only [motorInit, hr80]
  have h3 : updateSpeed boostConfigInit 20
      (updateSpeed boostConfigInit 10 (setSpeed motorInit 1000)) =
      { motorInit with targetSpeed := 1000, isRunning := true, currentSpeed := 160 } := by
    rw [h2, updateSpeed_simple _ _ _ rfl rfl]
    simp only [motorInit, hr160]
  have hc0 : constrain 0 0 MAX_SPEED = 0 := by
    unfold constrain MAX_SPEED
    rw [if_neg (by norm_num), if_neg (by norm_num)]
  have h4 : c2State =
      { motorInit with targetSpeed := 0, isRunning := false, currentSpeed := 160 } := by
    unfold c2State
    rw [h3]
    simp only [setSpeed, hc0]
    norm_num
  have h5 : updateSpeed boostConfigInit 30 c2State =
      { motorInit with targetSpeed := 0, isRunning := false, currentSpeed := 0,
                       timerRunning := false } := by
    rw [h4, updateSpeed_not_running _ _ _ rfl]
  refine ⟨by rw [h4], by rw [h4], by rw [h5], ?_⟩
  rw [h5, h4, accelStep_eq]
  show (80 : ℚ) < |0 - 160|
  rw [show |(0 : ℚ) - 160| = 160 by rw [abs_of_nonpos (by norm_num)]; norm_num]
  norm_num

/-- C7 counterexample: the command SPEED:0.5 auto-starts the motor, the
next tick snaps `currentSpeed` to 0.5 < 1, and the timer commitment then
programs the step timer with a degenerate 2,000,000 µs period instead of
disabling it — the disable threshold in the code is `currentSpeed > 0`,
not `currentSpeed < 1`. -/
theorem C7_counterexample :
    (updateSpeed boostConfigInit 10 (setSpeed motorInit (1/2))).currentSpeed = 1/2 ∧
    (updateSpeed boostConfigInit 10 (setSpeed motorInit (1/2))).currentSpeed < 1 ∧
    (updateSpeed boostConfigInit 10 (setSpeed motorInit (1/2))).isRunning = true ∧
    (commitTimer (updateSpeed boostConfigInit 10 (setSpeed motorInit (1/2)))).timerRunning
      = true ∧
    (commitTimer (updateSpeed boostConfigInit 10 (setSpeed motorInit (1/2)))).timerPeriod
      = 2000000 := by
  have hc : constrain (1/2) 0 MAX_SPEED = 1/2 := by
    unfold constrain MAX_SPEED
    rw [if_neg (by norm_num), if_neg (by norm_num)]
  have h1 : setSpeed motorInit (1/2) =
      { motorInit with targetSpeed := 1/2, isRunning := true } := by
    simp only [setSpeed, hc]
    rw [if_pos ⟨by norm_num, rfl⟩]
  have hsnap : rampTo ((1:ℚ)/2) 0 = 1/2 := by
    rw [rampTo_snap ((1:ℚ)/2) 0
      (by rw [accelStep_eq, show |(1:ℚ)/2 - 0| = 1/2 by rw [abs_of_nonneg] <;> norm_num]
          norm_num)
      (by norm_num) (by rw [MAX_SPEED_eq]; norm_num)]
  have h2 : updateSpeed boostConfigInit 10 (setSpeed motorInit (1/2)) =
      { motorInit with targetSpeed := 1/2, isRunning := true, currentSpeed := 1/2 } := by
    rw [h1, updateSpeed_simple _ _ _ rfl rfl]
    simp only [motorInit, hsnap]
  have h3 : commitTimer
      { motorInit with targetSpeed := 1/2, isRunning := true, currentSpeed := (1:ℚ)/2 } =
      { motorInit with targetSpeed := 1/2, isRunning := true, currentSpeed := (1:ℚ)/2,
                       timerRunning := true, timerPeriod := 1000000 / ((1:ℚ)/2) } := by
    unfold commitTimer
    rw [if_pos ⟨by norm_num, rfl⟩]
  refine ⟨by rw [h2], by rw [h2]; norm_num, by rw [h2], ?_, ?_⟩
  · rw [h2, h3]
  · rw [h2, h3]
    show (1000000 : ℚ) / (1/2) = 2000000
    norm_num

/-- C7 amended: after timer commitment, the step timer is disabled exactly
when `currentSpeed ≤ 0` or the motor is not running; any running motor
with `currentSpeed > 0` — including values strictly between 0 and 1 — is
programmed with period `1000000 / currentSpeed` µs. -/
theorem C7_commitTimer_amended (m : Motor) :
    ((commitTimer m).timerRunning = false ↔
      m.currentSpeed ≤ 0 ∨ m.isRunning = false) ∧
    (0 < m.currentSpeed → m.isRunning = true →
      (commitTimer m).timerRunning = true ∧
      (commitTimer m).timerPeriod = 1000000 / m.currentSpeed) := by
  constructor
  · unfold commitTimer
    split_ifs with h
    · simp only [Bool.true_eq_false, false_iff]
      rintro (h1 | h2)
      · exact absurd h.1 (not_lt.mpr h1)
      · rw [h.2] at h2; exact Bool.true_eq_false.mp h2
    · simp only [eq_self_iff_true, true_iff]
      rcases not_and_or.mp h with h1 | h2
      · exact Or.inl (not_lt.mp h1)
      · simp only [Bool.not_eq_true] at h2
        exact Or.inr h2
  · intro h1 h2
    unfold commitTimer
    rw [if_pos ⟨h1, h2⟩]
    exact ⟨rfl, rfl⟩

/-- C7 amended witness: a running motor at 0.5 steps/sec gets a 2 s timer
period. -/
theorem C7_commitTimer_amended_witness :
    (commitTimer { motorInit with currentSpeed := 1/2, isRunning := true }).timerRunning
      = true ∧
    (commitTimer { motorInit with currentSpeed := 1/2, isRunning := true }).timerPeriod
      = 2000000 := by
  have h := (C7_commitTimer_amended
    { motorInit with currentSpeed := 1/2, isRunning := true }).2 (by norm_num) rfl
  refine ⟨h.1, ?_⟩
  rw [h.2]
  show (1000000 : ℚ) / (1/2) = 2000000
  norm_num

lemma setSpeed_boostActive (m : Motor) (v : ℚ) :
    (setSpeed m v).boostActive = m.boostActive := by
  simp only [setSpeed]; split_ifs <;> rfl

/-- C5 amended: applyBoost with boost disabled is a plain setSpeed (no
boost state entered); with boost enabled it stores
targetSpeed = min(requested × multiplier, MAX_SPEED), normalSpeed =
requested, boostActive = true and boostStartTime = now; and a tick at or
after the expiry time on a RUNNING motor clears boost, restores
targetSpeed = normalSpeed and moves currentSpeed by at most accelStep
(no instant drop).  The running qualifier is forced by the
counterexample: updateSpeed returns before the expiry check when
isRunning is false. -/
theorem C5_boost_lifecycle_amended (cfg : BoostConfig) (now : ℕ) (m : Motor) (v : ℚ) :
    (cfg.enabled = false →
       applyBoost cfg now m v = setSpeed m v ∧
       (applyBoost cfg now m v).boostActive = m.boostActive) ∧
    (cfg.enabled = true →
       (applyBoost cfg now m v).targetSpeed = min (v * cfg.multiplier) MAX_SPEED ∧
       (applyBoost cfg now m v).normalSpeed = v ∧
       (applyBoost cfg now m v).boostActive = true ∧
       (applyBoost cfg now m v).boostStartTime = now) ∧
    (m.isRunning = true → m.boostActive = true →
     cfg.duration ≤ now - m.boostStartTime →
       (updateSpeed cfg now m).boostActive = false ∧
       (updateSpeed cfg now m).targetSpeed = m.normalSpeed ∧
       (0 ≤ m.currentSpeed → m.currentSpeed ≤ MAX_SPEED →
          |(updateSpeed cfg now m).currentSpeed - m.currentSpeed| ≤ accelStep)) := by
  refine ⟨?_, ?_, ?_⟩
  · intro h
    constructor
    · unfold applyBoost
      rw [if_pos h]
    · unfold applyBoost
      rw [if_pos h]
      exact setSpeed_boostActive m v
  · intro h
    have hmin : (if MAX_SPEED < v * cfg.multiplier then MAX_SPEED else v * cfg.multiplier)
        = min (v * cfg.multiplier) MAX_SPEED := by
      split_ifs with h2
      · rw [min_eq_right (le_of_lt h2)]
      · rw [min_eq_left (not_lt.mp h2)]
    unfold applyBoost
    rw [if_neg (by rw [h]; exact fun hc => Bool.true_eq_false.mp hc)]
    exact ⟨hmin, rfl, rfl, rfl⟩
  · intro hr hb hd
    have hbe : boostExpire cfg now m =
        { m with boostActive := false, targetSpeed := m.normalSpeed } := by
      unfold boostExpire
      rw [if_pos ⟨hb, hd⟩]
    rw [updateSpeed_running cfg now m hr, hbe]
    refine ⟨rfl, rfl, ?_⟩
    intro h0 hM
    exact rampTo_abs_le _ _ h0 hM

/-- C5 amended witness: a running boosted motor (normal 2000, boosted
target 3000, speed 2500) whose boost expires clears the boost flag,
retargets 2000 and keeps the per-tick ramp bound. -/
theorem C5_boost_lifecycle_amended_witness :
    (updateSpeed boostConfigInit 800
      { motorInit with isRunning := true, boostActive := true, boostStartTime := 0,
                       targetSpeed := 3000, normalSpeed := 2000,
                       currentSpeed := 2500 }).boostActive = false ∧
    (updateSpeed boostConfigInit 800
      { motorInit with isRunning := true, boostActive := true, boostStartTime := 0,
                       targetSpeed := 3000, normalSpeed := 2000,
                       currentSpeed := 2500 }).targetSpeed = 2000 ∧
    |(updateSpeed boostConfigInit 800
      { motorInit with isRunning := true, boostActive := true, boostStartTime := 0,
                       targetSpeed := 3000, normalSpeed := 2000,
                       currentSpeed := 2500 }).currentSpeed - 2500| ≤ accelStep := by
  have h := (C5_boost_lifecycle_amended boostConfigInit 800
    { motorInit with isRunning := true, boostActive := true, boostStartTime := 0,
                     targetSpeed := 3000, normalSpeed := 2000, currentSpeed := 2500 }
    0).2.2 rfl rfl (by decide)
  exact ⟨h.1, h.2.1,
    h.2.2 (by norm_num [motorInit]) (by norm_num [motorInit, MAX_SPEED])⟩

/-- A motor stopped by a zero-speed command while its boost is still
pending expiry: not running, boost active since t = 0, boosted target
3000, normal speed 2000. -/
def c5Motor : Motor :=
  { motorInit with isRunning := false, boostActive := true, boostStartTime := 0,
                   targetSpeed := 3000, normalSpeed := 2000 }

/-- C5 counterexample: on a tick at time 1000 — well past the 800 ms
expiry — updateSpeed returns through the not-running early exit, so the
boost is NOT cleared and targetSpeed is NOT restored to normalSpeed,
contradicting the claim's unconditional "on the first subsequent tick
where now − boostStartTime ≥ duration". -/
theorem C5_counterexample :
    boostConfigInit.duration ≤ 1000 - c5Motor.boostStartTime ∧
    c5Motor.boostActive = true ∧
    (updateSpeed boostConfigInit 1000 c5Motor).boostActive = true ∧
    (updateSpeed boostConfigInit 1000 c5Motor).targetSpeed = 3000 ∧
    c5Motor.normalSpeed = 2000 ∧
    (3000 : ℚ) ≠ 2000 := by
  refine ⟨by decide, rfl, ?_, ?_, rfl, by norm_num⟩
  · rw [updateSpeed_not_running _ _ _ rfl]; rfl
  · rw [updateSpeed_not_running _ _ _ rfl]; rfl

lemma updateSpeed_direction (cfg : BoostConfig) (now : ℕ) (m : Motor) :
    (updateSpeed cfg now m).direction = m.direction := by
  cases hr : m.isRunning
  · rw [updateSpeed_not_running _ _ _ hr]
  · rw [updateSpeed_running _ _ _ hr]
    exact boostExpire_direction cfg now m

lemma updateSpeed_dirPinHigh (cfg : BoostConfig) (now : ℕ) (m : Motor) :
    (updateSpeed cfg now m).dirPinHigh = m.dirPinHigh := by
  cases hr : m.isRunning
  · rw [updateSpeed_not_running _ _ _ hr]
  · rw [updateSpeed_running _ _ _ hr]
    exact boostExpire_dirPinHigh cfg now m

lemma updateSpeed_normalSpeed (cfg : BoostConfig) (now : ℕ) (m : Motor) :
    (updateSpeed cfg now m).normalSpeed = m.normalSpeed := by
  cases hr : m.isRunning
  · rw [updateSpeed_not_running _ _ _ hr]
  · rw [updateSpeed_running _ _ _ hr]
    exact boostExpire_normalSpeed cfg now m

lemma updateSpeed_ts_cases (cfg : BoostConfig) (now : ℕ) (m : Motor) :
    (updateSpeed cfg now m).targetSpeed = m.targetSpeed ∨
      (updateSpeed cfg now m).targetSpeed = m.normalSpeed := by
  cases hr : m.isRunning
  · rw [updateSpeed_not_running _ _ _ hr]
    exact Or.inl rfl
  · rw [updateSpeed_running _ _ _ hr]
    exact boostExpire_targetSpeed_cases cfg now m

lemma updateSpeed_ts_of_inactive (cfg : BoostConfig) (now : ℕ) (m : Motor)
    (hb : m.boostActive = false) :
    (updateSpeed cfg now m).targetSpeed = m.targetSpeed ∧
      (updateSpeed cfg now m).boostActive = false := by
  cases hr : m.isRunning
  · rw [updateSpeed_not_running _ _ _ hr]
    exact ⟨rfl, hb⟩
  · rw [updateSpeed_simple _ _ _ hr hb]
    exact ⟨rfl, hb⟩

lemma estopLoop_ts_inv (cfg : BoostConfig) :
    ∀ (fuel now : ℕ) (p : Motor × Motor), p.1.boostActive = false →
      (estopLoop cfg fuel now p).1.targetSpeed = p.1.targetSpeed := by
  intro fuel
  induction fuel with
  | zero => intro now p _; rfl
  | succ n ih =>
    intro now p hb
    simp only [estopLoop]
    split_ifs with h
    · have h1 := updateSpeed_ts_of_inactive cfg now p.1 hb
      rw [ih (now + accelUpdateInterval)
        (updateSpeed cfg now p.1, updateSpeed cfg now p.2) h1.2]
      exact h1.1
    · rfl

lemma estopLoop_ts_cases (cfg : BoostConfig) :
    ∀ (fuel now : ℕ) (p : Motor × Motor),
      ((estopLoop cfg fuel now p).1.targetSpeed = p.1.targetSpeed ∨
        (estopLoop cfg fuel now p).1.targetSpeed = p.1.normalSpeed) ∧
      ((estopLoop cfg fuel now p).2.targetSpeed = p.2.targetSpeed ∨
        (estopLoop cfg fuel now p).2.targetSpeed = p.2.normalSpeed) := by
  intro fuel
  induction fuel with
  | zero => intro now p; exact ⟨Or.inl rfl, Or.inl rfl⟩
  | succ n ih =>
    intro now p
    simp only [estopLoop]
    split_ifs with h
    · have h1 := ih (now + accelUpdateInterval)
        (updateSpeed cfg now p.1, updateSpeed cfg now p.2)
      constructor
      · rcases h1.1 with h2 | h2 <;> rw [h2]
        · exact updateSpeed_ts_cases cfg now p.1
        · exact Or.inr (updateSpeed_normalSpeed cfg now p.1)
      · rcases h1.2 with h2 | h2 <;> rw [h2]
        · exact updateSpeed_ts_cases cfg now p.2
        · exact Or.inr (updateSpeed_normalSpeed cfg now p.2)
    · exact ⟨Or.inl rfl, Or.inl rfl⟩

/-- C3 amended: emergencyStop zeroes both targets on entry, its
deceleration loop is bounded by 50 ten-millisecond iterations (the 500 ms
deadline), and on return both motors have currentSpeed = 0, isRunning =
false, timers ended and step outputs low, for EVERY initial state and
independent of ACCEL_RATE; each motor's targetSpeed on return is 0
unless its boost expired during the loop, in which case it is that
motor's normalSpeed (the forced-stop epilogue does not re-zero it). -/
theorem C3_emergencyStop_amended (cfg : BoostConfig) (now : ℕ) (m1 m2 : Motor) :
    (emergencyStop cfg now m1 m2).1.currentSpeed = 0 ∧
    (emergencyStop cfg now m1 m2).1.isRunning = false ∧
    (emergencyStop cfg now m1 m2).1.timerRunning = false ∧
    (emergencyStop cfg now m1 m2).1.stepPinHigh = false ∧
    (emergencyStop cfg now m1 m2).2.currentSpeed = 0 ∧
    (emergencyStop cfg now m1 m2).2.isRunning = false ∧
    (emergencyStop cfg now m1 m2).2.timerRunning = false ∧
    (emergencyStop cfg now m1 m2).2.stepPinHigh = false ∧
    ((emergencyStop cfg now m1 m2).1.targetSpeed = 0 ∨
      (emergencyStop cfg now m1 m2).1.targetSpeed = m1.normalSpeed) ∧
    ((emergencyStop cfg now m1 m2).2.targetSpeed = 0 ∨
      (emergencyStop cfg now m1 m2).2.targetSpeed = m2.normalSpeed) := by
  have h := estopLoop_ts_cases cfg 50 now
    ({ m1 with targetSpeed := 0 }, { m2 with targetSpeed := 0 })
  refine ⟨rfl, rfl, rfl, rfl, rfl, rfl, rfl, rfl, ?_, ?_⟩
  · rcases h.1 with h1 | h1
    · exact Or.inl h1
    · exact Or.inr h1
  · rcases h.2 with h1 | h1
    · exact Or.inl h1
    · exact Or.inr h1

lemma estopLoop_succ (cfg : BoostConfig) (n now : ℕ) (a b : Motor)
    (h : 1 < a.currentSpeed ∨ 1 < b.currentSpeed) :
    estopLoop cfg (n + 1) now (a, b) =
      estopLoop cfg n (now + accelUpdateInterval)
        (updateSpeed cfg now a, updateSpeed cfg now b) := by
  simp only [estopLoop]
  rw [if_pos h]

/-- A motor running at 1000 steps/sec under an active boost (normal
speed 2000, boosted target 3000) that started at t = 0. -/
def c3Motor : Motor :=
  { motorInit with currentSpeed := 1000, targetSpeed := 3000, isRunning := true,
                   boostActive := true, boostStartTime := 0, normalSpeed := 2000 }

/-- C3 counterexample: emergencyStop invoked at t = 800 — exactly when
the 800 ms boost expires — returns with targetSpeed = 2000, not 0: the
first loop tick's boost-expiry check overwrites the zeroed target with
normalSpeed, and the forced-stop epilogue never restores it. -/
theorem C3_counterexample :
    (emergencyStop boostConfigInit 800 c3Motor motorInit).1.targetSpeed = 2000 ∧
    (2000 : ℚ) ≠ 0 := by
  refine ⟨?_, by norm_num⟩
  show (estopLoop boostConfigInit 50 800
    ({ c3Motor with targetSpeed := 0 },
     { motorInit with targetSpeed := 0 })).1.targetSpeed = 2000
  have hbe : boostExpire boostConfigInit 800 { c3Motor with targetSpeed := 0 } =
      { { c3Motor with targetSpeed := 0 } with
          boostActive := false,
          targetSpeed := { c3Motor with targetSpeed := (0:ℚ) }.normalSpeed } := by
    unfold boostExpire
    rw [if_pos ⟨rfl, by decide⟩]
  have hb2 : (updateSpeed boostConfigInit 800 { c3Motor with targetSpeed := 0 }).boostActive
      = false := by
    rw [updateSpeed_running _ _ _ rfl, hbe]
  have ht2 : (updateSpeed boostConfigInit 800 { c3Motor with targetSpeed := 0 }).targetSpeed
      = 2000 := by
    rw [updateSpeed_running _ _ _ rfl, hbe]
    rfl
  rw [show (50 : ℕ) = 49 + 1 from rfl,
    estopLoop_succ boostConfigInit 49 800 { c3Motor with targetSpeed := 0 }
      { motorInit with targetSpeed := 0 }
      (Or.inl (by norm_num [c3Motor, motorInit]))]
  exact (estopLoop_ts_inv boostConfigInit 49 (800 + accelUpdateInterval)
    (updateSpeed boostConfigInit 800 { c3Motor with targetSpeed := 0 },
     updateSpeed boostConfigInit 800 { motorInit with targetSpeed := 0 }) hb2).trans ht2

lemma constrain_le_self (x : ℚ) (h : 0 ≤ x) : constrain x 0 MAX_SPEED ≤ x := by
  unfold constrain
  split_ifs <;> linarith

lemma rampTo_gt_of (T c : ℚ) (hT : 300 < T) (hc : 300 < c) : 300 < rampTo T c := by
  have hs := accelStep_eq
  have hM := MAX_SPEED_eq
  rcases le_or_lt (|T - c|) accelStep with hle | hgt
  · unfold rampTo
    rw [if_neg (not_lt.mpr hle)]
    unfold constrain
    split_ifs <;> linarith
  · rcases lt_abs.mp hgt with h2 | h2
    · unfold rampTo
      rw [if_pos hgt, if_pos (by linarith)]
      unfold constrain
      split_ifs <;> linarith
    · unfold rampTo
      rw [if_pos hgt, if_neg (not_lt.mpr (by linarith))]
      unfold constrain
      split_ifs <;> linarith

lemma dirLoop_succ (cfg : BoostConfig) (n now : ℕ) (m : Motor)
    (h : 300 < m.currentSpeed) :
    dirLoop cfg (n + 1) now m =
      dirLoop cfg n (now + accelUpdateInterval) (updateSpeed cfg now m) := by
  simp only [dirLoop]
  rw [if_pos h]

lemma dirLoop_none (cfg : BoostConfig) (T : ℚ) (hT : 300 < T) :
    ∀ (fuel now : ℕ) (m : Motor), m.isRunning = true → m.boostActive = false →
      m.targetSpeed = T → 300 < m.currentSpeed → dirLoop cfg fuel now m = none := by
  intro fuel
  induction fuel with
  | zero =>
    intro now m _ _ _ hc
    simp only [dirLoop]
    rw [if_pos hc]
  | succ n ih =>
    intro now m hr hb ht hc
    rw [dirLoop_succ cfg n now m hc]
    apply ih
    · rw [updateSpeed_simple _ _ _ hr hb]; exact hr
    · rw [updateSpeed_simple _ _ _ hr hb]; exact hb
    · rw [updateSpeed_simple _ _ _ hr hb]; exact ht
    · rw [updateSpeed_simple _ _ _ hr hb]
      show 300 < rampTo m.targetSpeed m.currentSpeed
      rw [ht]
      exact rampTo_gt_of T m.currentSpeed hT hc

lemma dirLoop_some (cfg : BoostConfig) :
    ∀ (fuel now : ℕ) (m : Motor), m.boostActive = false → m.targetSpeed = 200 →
      m.currentSpeed ≤ MAX_SPEED →
      m.currentSpeed ≤ 300 + accelStep * fuel →
      ∃ m2, dirLoop cfg fuel now m = some m2 ∧ m2.currentSpeed ≤ 300 ∧
        m2.direction = m.direction ∧ m2.dirPinHigh = m.dirPinHigh ∧
        m2.targetSpeed = 200 ∧ m2.boostActive = false := by
  intro fuel
  induction fuel with
  | zero =>
    intro now m hb ht _ hc
    have hc3 : m.currentSpeed ≤ 300 := by simpa using hc
    refine ⟨m, ?_, hc3, rfl, rfl, ht, hb⟩
    simp only [dirLoop]
    rw [if_neg (not_lt.mpr hc3)]
  | succ n ih =>
    intro now m hb ht hM hc
    rcases le_or_lt m.currentSpeed 300 with hle | hgt
    · refine ⟨m, ?_, hle, rfl, rfl, ht, hb⟩
      simp only [dirLoop]
      rw [if_neg (not_lt.mpr hle)]
    · rw [dirLoop_succ cfg n now m hgt]
      cases hr : m.isRunning
      case false =>
        have husr := updateSpeed_not_running cfg now m hr
        obtain ⟨m2, h1, h2, h3, h4, h5, h6⟩ :=
          ih (now + accelUpdateInterval) (updateSpeed cfg now m)
            (by rw [husr]; exact hb)
            (by rw [husr]; exact ht)
            (by rw [husr]; show (0:ℚ) ≤ MAX_SPEED; rw [MAX_SPEED_eq]; norm_num)
            (by rw [husr]; show (0:ℚ) ≤ 300 + accelStep * n
                rw [accelStep_eq]; positivity)
        refine ⟨m2, h1, h2, ?_, ?_, h5, h6⟩
        · rw [h3]; exact updateSpeed_direction cfg now m
        · rw [h4]; exact updateSpeed_dirPinHigh cfg now m
      case true =>
        have hus := updateSpeed_simple cfg now m hr hb
        have hdown : rampTo m.targetSpeed m.currentSpeed = m.currentSpeed - accelStep := by
          rw [ht]
          exact rampTo_down 200 m.currentSpeed (by rw [accelStep_eq]; linarith)
            (by norm_num) hM
        obtain ⟨m2, h1, h2, h3, h4, h5, h6⟩ :=
          ih (now + accelUpdateInterval) (updateSpeed cfg now m)
            (by rw [hus]; exact hb)
            (by rw [hus]; exact ht)
            (by rw [hus]
                show rampTo m.targetSpeed m.currentSpeed ≤ MAX_SPEED
                rw [hdown, accelStep_eq]
                linarith)
            (by rw [hus]
                show rampTo m.targetSpeed m.currentSpeed ≤ 300 + accelStep * n
                rw [hdown]
                have hse := accelStep_eq
                push_cast at hc ⊢
                rw [hse] at hc ⊢
                linarith)
        refine ⟨m2, h1, h2, ?_, ?_, h5, h6⟩
        · rw [h3]; exact updateSpeed_direction cfg now m
        · rw [h4]; exact updateSpeed_dirPinHigh cfg now m

/-- C4 amended: the claim holds provided the motor's boost cannot expire
during the decay (here: boost inactive at the call, as forced by the
counterexample).  Then: (a) every decay tick leaves the direction field
and DIR pin untouched and is non-increasing in speed; (b) a request with
unchanged direction or with speed ≤ 500 commits immediately and touches
nothing else; (c) a reversal above 500 decays to ≤ 300 within the loop
(fuel 250 covers any speed ≤ MAX_SPEED), then commits the direction and
pin and restores the original targetSpeed. -/
theorem C4_setDirection_amended (cfg : BoostConfig) (now : ℕ) (m : Motor) (dir : ℤ)
    (hb : m.boostActive = false) (hM : m.currentSpeed ≤ MAX_SPEED) :
    (∀ (t : ℕ) (mm : Motor), mm.boostActive = false → mm.targetSpeed = 200 →
        300 < mm.currentSpeed →
        (updateSpeed cfg t mm).currentSpeed ≤ mm.currentSpeed ∧
        (updateSpeed cfg t mm).direction = mm.direction ∧
        (updateSpeed cfg t mm).dirPinHigh = mm.dirPinHigh) ∧
    (¬((if 0 ≤ dir then (1:ℤ) else -1) ≠ m.direction ∧ 500 < m.currentSpeed) →
        setDirection cfg 250 now m dir =
          some { m with direction := if 0 ≤ dir then 1 else -1,
                        dirPinHigh :=
                          if (if 0 ≤ dir then (1:ℤ) else -1) = 1 then false else true }) ∧
    ((if 0 ≤ dir then (1:ℤ) else -1) ≠ m.direction → 500 < m.currentSpeed →
        ∃ m2, dirLoop cfg 250 now { m with targetSpeed := 200 } = some m2 ∧
          m2.currentSpeed ≤ 300 ∧ m2.direction = m.direction ∧
          m2.dirPinHigh = m.dirPinHigh ∧
          setDirection cfg 250 now m dir =
            some { m2 with
                     direction := if 0 ≤ dir then 1 else -1,
                     dirPinHigh :=
                       if (if 0 ≤ dir then (1:ℤ) else -1) = 1 then false else true,
                     targetSpeed := m.targetSpeed }) := by
  refine ⟨?_, ?_, ?_⟩
  · intro t mm hmb hmt hmc
    refine ⟨?_, updateSpeed_direction cfg t mm, updateSpeed_dirPinHigh cfg t mm⟩
    cases hmr : mm.isRunning
    · rw [updateSpeed_not_running _ _ _ hmr]
      show (0:ℚ) ≤ mm.currentSpeed
      linarith
    · rw [updateSpeed_simple _ _ _ hmr hmb]
      show rampTo mm.targetSpeed mm.currentSpeed ≤ mm.currentSpeed
      rw [hmt]
      unfold rampTo
      rw [if_pos (by rw [accelStep_eq, abs_of_nonpos (by linarith)]; linarith),
        if_neg (not_lt.mpr (by linarith))]
      have h1 : constrain (mm.currentSpeed - accelStep) 0 MAX_SPEED ≤
          mm.currentSpeed - accelStep :=
        constrain_le_self _ (by rw [accelStep_eq]; linarith)
      have hse := accelStep_eq
      linarith
  · intro hno
    simp only [setDirection]
    rw [if_neg hno]
  · intro h1 h2
    obtain ⟨m2, hloop, hcs, hdir, hpin, _, _⟩ :=
      dirLoop_some cfg 250 now { m with targetSpeed := 200 } hb rfl hM
        (by show m.currentSpeed ≤ 300 + accelStep * (250:ℕ)
            rw [MAX_SPEED_eq] at hM
            push_cast
            rw [accelStep_eq]
            linarith)
    refine ⟨m2, hloop, hcs, hdir, hpin, ?_⟩
    simp only [setDirection]
    rw [if_pos ⟨h1, h2⟩, hloop]

/-- A motor cruising forward at 1000 steps/sec with no boost pending. -/
def c4WitnessMotor : Motor :=
  { motorInit with currentSpeed := 1000, isRunning := true }

/-- C4 amended witness: a reversal request at 1000 steps/sec completes
(the decay loop exits within fuel 250) and commits direction -1. -/
theorem C4_setDirection_amended_witness :
    (setDirection boostConfigInit 250 0 c4WitnessMotor (-1)).isSome = true ∧
    Option.map Motor.direction (setDirection boostConfigInit 250 0 c4WitnessMotor (-1)) =
      some (-1) := by
  obtain ⟨m2, hloop, hcs, hdir, hpin, hsd⟩ :=
    (C4_setDirection_amended boostConfigInit 0 c4WitnessMotor (-1) rfl
      (by norm_num [c4WitnessMotor, motorInit, MAX_SPEED])).2.2
      (by decide) (by norm_num [c4WitnessMotor, motorInit])
  rw [hsd]
  refine ⟨rfl, ?_⟩
  simp

/-- A motor at 840 steps/sec whose boost (normal speed 2000) is still
active and about to expire. -/
def c4Motor : Motor :=
  { motorInit with currentSpeed := 840, targetSpeed := 3000, isRunning := true,
                   boostActive := true, boostStartTime := 0, normalSpeed := 2000 }

/-- C4 counterexample: a reversal requested at t = 800 — when the 800 ms
boost expires — makes the first decay tick RAISE currentSpeed from 840
to 920 (the expiry check rewrites targetSpeed to normalSpeed = 2000),
violating monotonic non-increase; the decay loop then never reaches 300
and the direction is never committed (setDirection = none at fuel 50 —
in the firmware this busy-wait loop never exits). -/
theorem C4_counterexample :
    setDirection boostConfigInit 50 800 c4Motor (-1) = none ∧
    c4Motor.currentSpeed = 840 ∧
    (updateSpeed boostConfigInit 800 { c4Motor with targetSpeed := 200 }).currentSpeed
      = 920 ∧
    c4Motor.currentSpeed <
      (updateSpeed boostConfigInit 800 { c4Motor with targetSpeed := 200 }).currentSpeed := by
  have hbe : boostExpire boostConfigInit 800 { c4Motor with targetSpeed := 200 } =
      { { c4Motor with targetSpeed := 200 } with
          boostActive := false,
          targetSpeed := { c4Motor with targetSpeed := (200:ℚ) }.normalSpeed } := by
    unfold boostExpire
    rw [if_pos ⟨rfl, by decide⟩]
  have hramp : rampTo (2000 : ℚ) 840 = 920 := by
    rw [rampTo_up 2000 840 (by rw [accelStep_eq]; norm_num) (by norm_num)
      (by rw [MAX_SPEED_eq]; norm_num), accelStep_eq]
    norm_num
  have h1 : updateSpeed boostConfigInit 800 { c4Motor with targetSpeed := 200 } =
      { c4Motor with targetSpeed := 2000, boostActive := false, currentSpeed := 920 } := by
    rw [updateSpeed_running _ _ _ rfl, hbe]
    simp only [c4Motor, motorInit, hramp]
  refine ⟨?_, rfl, by rw [h1], by rw [h1]; norm_num [c4Motor, motorInit]⟩
  simp only [setDirection]
  rw [if_pos ⟨by decide, by norm_num [c4Motor, motorInit]⟩]
  rw [show (50 : ℕ) = 49 + 1 from rfl,
    dirLoop_succ boostConfigInit 49 800 _ (by norm_num [c4Motor, motorInit]), h1]
  rw [dirLoop_none boostConfigInit 2000 (by norm_num) 49 (800 + accelUpdateInterval)
    { c4Motor with targetSpeed := 2000, boostActive := false, currentSpeed := 920 }
    rfl rfl rfl (by norm_num [c4Motor, motorInit])]

lemma ramp_converges (cfg : BoostConfig) (T : ℚ) (hT0 : 0 ≤ T) (hTM : T ≤ MAX_SPEED) :
    ∀ (times : List ℕ) (m : Motor), m.isRunning = true → m.boostActive = false →
      m.targetSpeed = T → 0 ≤ m.currentSpeed → m.currentSpeed ≤ MAX_SPEED →
      |T - m.currentSpeed| ≤ accelStep * times.length →
      (applyTicks cfg times m).currentSpeed = T ∧
      (applyTicks cfg times m).targetSpeed = T ∧
      (applyTicks cfg times m).isRunning = true ∧
      (applyTicks cfg times m).boostActive = false := by
  intro times
  induction times with
  | nil =>
    intro m hr hb ht h0 hM hd
    have h1 : |T - m.currentSpeed| ≤ 0 := by simpa using hd
    have h2 : T - m.currentSpeed = 0 := abs_eq_zero.mp (le_antisymm h1 (abs_nonneg _))
    have h3 : m.currentSpeed = T := by linarith
    exact ⟨h3, ht, hr, hb⟩
  | cons t ts ih =>
    intro m hr hb ht h0 hM hd
    show (applyTicks cfg ts (updateSpeed cfg t m)).currentSpeed = T ∧ _ ∧ _ ∧ _
    have hus := updateSpeed_simple cfg t m hr hb
    have hr2 : (updateSpeed cfg t m).isRunning = true := by rw [hus]; exact hr
    have hb2 : (updateSpeed cfg t m).boostActive = false := by rw [hus]; exact hb
    have ht2 : (updateSpeed cfg t m).targetSpeed = T := by rw [hus]; exact ht
    have hcs : (updateSpeed cfg t m).currentSpeed = rampTo T m.currentSpeed := by
      rw [hus]
      show rampTo m.targetSpeed m.currentSpeed = rampTo T m.currentSpeed
      rw [ht]
    have hmem := rampTo_mem T m.currentSpeed
    have hse := accelStep_eq
    simp only [List.length_cons] at hd
    push_cast at hd
    rcases le_or_lt (|T - m.currentSpeed|) accelStep with hle | hgt
    · have hsnap : rampTo T m.currentSpeed = T := rampTo_snap T m.currentSpeed hle hT0 hTM
      apply ih (updateSpeed cfg t m) hr2 hb2 ht2
        (by rw [hcs]; exact hmem.1) (by rw [hcs]; exact hmem.2)
      rw [hcs, hsnap, sub_self, abs_zero, hse]
      positivity
    · rcases lt_abs.mp hgt with hup | hdown
      · have hstep2 : rampTo T m.currentSpeed = m.currentSpeed + accelStep :=
          rampTo_up T m.currentSpeed hup h0 hTM
        apply ih (updateSpeed cfg t m) hr2 hb2 ht2
          (by rw [hcs]; exact hmem.1) (by rw [hcs]; exact hmem.2)
        rw [hcs, hstep2, abs_of_nonneg (by linarith)]
        have habs : T - m.currentSpeed ≤ |T - m.currentSpeed| := le_abs_self _
        rw [hse] at hd ⊢
        linarith
      · have hd80 : accelStep < m.currentSpeed - T := by linarith [neg_sub T m.currentSpeed]
        have hstep2 : rampTo T m.currentSpeed = m.currentSpeed - accelStep :=
          rampTo_down T m.currentSpeed hd80 hT0 hM
        apply ih (updateSpeed cfg t m) hr2 hb2 ht2
          (by rw [hcs]; exact hmem.1) (by rw [hcs]; exact hmem.2)
        rw [hcs, hstep2, abs_of_nonpos (by linarith)]
        have habs : -(T - m.currentSpeed) ≤ |T - m.currentSpeed| := neg_le_abs _
        rw [hse] at hd ⊢
        linarith

/-- C6: with the motor running, boost inactive and targetSpeed held at
T ∈ [0, MAX_SPEED], the ramp reaches T exactly after
⌈|T − currentSpeed₀| / accelStep⌉ ticks (whatever their timestamps), and
every further tick leaves currentSpeed fixed at T (the snap rule makes
the converged state a fixed point).  currentSpeed₀ ∈ [0, MAX_SPEED] is
the C1 invariant. -/
theorem C6_ramp_convergence (cfg : BoostConfig) (m : Motor) (T : ℚ) (times : List ℕ)
    (hr : m.isRunning = true) (hb : m.boostActive = false) (ht : m.targetSpeed = T)
    (hT0 : 0 ≤ T) (hTM : T ≤ MAX_SPEED)
    (h0 : 0 ≤ m.currentSpeed) (hM : m.currentSpeed ≤ MAX_SPEED)
    (hlen : times.length = Nat.ceil (|T - m.currentSpeed| / accelStep)) :
    (applyTicks cfg times m).currentSpeed = T ∧
    ∀ t2, (updateSpeed cfg t2 (applyTicks cfg times m)).currentSpeed = T := by
  have h80 : (0:ℚ) < accelStep := by rw [accelStep_eq]; norm_num
  have hd : |T - m.currentSpeed| ≤ accelStep * times.length := by
    rw [hlen]
    have hceil := Nat.le_ceil (|T - m.currentSpeed| / accelStep)
    rw [div_le_iff₀ h80] at hceil
    linarith [hceil]
  obtain ⟨h1, h2, h3, h4⟩ := ramp_converges cfg T hT0 hTM times m hr hb ht h0 hM hd
  refine ⟨h1, ?_⟩
  intro t2
  rw [updateSpeed_simple cfg t2 _ h3 h4]
  show rampTo (applyTicks cfg times m).targetSpeed (applyTicks cfg times m).currentSpeed = T
  rw [h2, h1]
  exact rampTo_snap T T (by rw [sub_self, abs_zero, accelStep_eq]; norm_num) hT0 hTM

/-- C6 witness: from rest toward T = 80, ⌈80/80⌉ = 1 tick suffices and a
further tick at any time leaves the speed at 80. -/
theorem C6_ramp_convergence_witness :
    (applyTicks boostConfigInit [0]
      { motorInit with isRunning := true, targetSpeed := 80 }).currentSpeed = 80 ∧
    (updateSpeed boostConfigInit 99 (applyTicks boostConfigInit [0]
      { motorInit with isRunning := true, targetSpeed := 80 })).currentSpeed = 80 := by
  have h := C6_ramp_convergence boostConfigInit
    { motorInit with isRunning := true, targetSpeed := 80 } 80 [0]
    rfl rfl rfl (by norm_num) (by rw [MAX_SPEED_eq]; norm_num)
    (by norm_num [motorInit]) (by norm_num [motorInit, MAX_SPEED])
    (by norm_num [motorInit, accelStep_eq])
  exact ⟨h.1, h.2 99⟩

end DualMotor
